import Mathlib

/-!
Verification of the two OpenStack scheduler filters:

* `TargetHostFilter.backend_passes` (Cinder, `target_host_filter.py`):
  pass a backend exactly when its host name equals the `target_host` hint.
* `VolumeAffinityFilter.host_passes` (Nova, `volume_affinity_filter.py`):
  resolve the volume named by the `same_volume_host` hint through the
  Cinder client and pass a host exactly when it equals the volume's
  owning host.

The remote Cinder lookup is embedded as an explicit oracle
`String → Except CinderError Volume`: `Except.error` stands for the
client raising, with `CinderError.notFound` for `cinder_exc.NotFound`
and `CinderError.other` for any other exception.  Both filter methods
are total `Bool`-valued functions: every exception the source catches
is absorbed into a `false` result, exactly as the `except` clauses do.
-/

/-- A string-keyed hint mapping (a Python `dict` of scheduler hints),
embedded as an association list. -/
abbrev HintMap := List (String × String)

/-- `dict.get(k, None)`: the value bound to `k`, or `none`. -/
def HintMap.get? (m : HintMap) (k : String) : Option String :=
  (m.find? (fun p => p.1 == k)).map (fun p => p.2)

/-- `HINT_KEYWORD = 'target_host'` from `target_host_filter.py`. -/
def HINT_KEYWORD : String := "target_host"

/-- A Cinder backend as the filter sees it: `backend_state.backend_id`
is its raw identity string (`"host@backend#pool"`-shaped). -/
structure BackendState where
  backend_id : String

/-- The `filter_properties` dict: `filter_properties.get('scheduler_hints')`
may be absent or `None`, which the source replaces by `{}` via `or {}`. -/
structure FilterProperties where
  scheduler_hints : Option HintMap

/-- Modelled from the spec: `cinder.volume.volume_utils.extract_host`
(an external collaborator, not among the sources) at level `'host'`.
Per the spec, the candidate's simple name is obtained by splitting the
raw identity string on the `@` delimiter and taking the host component:
the segment before the first `@`; a string with no delimiter is its own
host name. -/
def extract_host (host : String) : String :=
  String.mk (host.data.takeWhile (fun c => c ≠ '@'))

/-- `TargetHostFilter.backend_passes` from `target_host_filter.py`. -/
def backend_passes (backend_state : BackendState)
    (filter_properties : FilterProperties) : Bool :=
  -- scheduler_hints = filter_properties.get('scheduler_hints') or {}
  let scheduler_hints : HintMap := filter_properties.scheduler_hints.getD []
  -- target_host = scheduler_hints.get(HINT_KEYWORD, None)
  match scheduler_hints.get? HINT_KEYWORD with
  | none => true                      -- if not target_host: return True
  | some target_host =>
    if target_host = "" then true     -- '' is falsy in Python
    else
      -- backend_host = volume_utils.extract_host(backend_state.backend_id, 'host')
      let backend_host := extract_host backend_state.backend_id
      backend_host == target_host     -- matches = backend_host == target_host

/-- The error a Cinder volume lookup can raise: `cinder_exc.NotFound`,
or any other exception (carrying its detail). -/
inductive CinderError where
  | notFound
  | other (detail : String)
deriving DecidableEq

/-- The resolved volume: `getattr(volume, 'os-vol-host-attr:host', None)`
reads an optional vendor attribute, embedded as an optional field. -/
structure Volume where
  os_vol_host_attr_host : Option String
deriving DecidableEq

/-- A Nova compute host as the filter sees it: `host_state.host`. -/
structure HostState where
  host : String

/-- The Nova request-spec object: it carries an optional scheduler-hint
mapping. -/
structure RequestSpec where
  scheduler_hints : Option HintMap

/-- Modelled from the spec: `RequestSpec.get_scheduler_hint` (the
request-spec object is an external collaborator, not among the sources).
Per the spec the request carries an optional hint mapping; the accessor
returns the value bound to the key, or `none` when the mapping or the
key is absent. -/
def RequestSpec.get_scheduler_hint (spec_obj : RequestSpec) (k : String) :
    Option String :=
  HintMap.get? (spec_obj.scheduler_hints.getD []) k

/-- `VolumeAffinityFilter.host_passes` from `volume_affinity_filter.py`.
`lookup` is the Cinder client call
`cinder.cinderclient(ctxt).volumes.get(volume_id)`, made under the
elevated context; an `Except.error` outcome is the call raising, which
the source's `except` clauses turn into `return False`. -/
def host_passes (lookup : String → Except CinderError Volume)
    (host_state : HostState) (spec_obj : RequestSpec) : Bool :=
  -- volume_id = spec_obj.get_scheduler_hint('same_volume_host')
  match spec_obj.get_scheduler_hint "same_volume_host" with
  | none => true                      -- if not volume_id: return True
  | some volume_id =>
    if volume_id = "" then true       -- '' is falsy in Python
    else
      match lookup volume_id with
      | .error .notFound => false     -- except cinder_exc.NotFound: return False
      | .error (.other _) => false    -- except Exception as ex: return False
      | .ok volume =>
        -- volume_host = getattr(volume, 'os-vol-host-attr:host', None)
        match volume.os_vol_host_attr_host with
        | none => false               -- if not volume_host: return False
        | some volume_host =>
          if volume_host = "" then false
          else
            -- volume_host_name = volume_host.split('@')[0]
            let volume_host_name :=
              String.mk (volume_host.data.takeWhile (fun c => c ≠ '@'))
            host_state.host == volume_host_name

/-- `host_passes` instrumented with the list of remote lookup calls it
performs, in order; the boolean component follows the source line for
line and agrees with `host_passes`. -/
def host_passes_traced (lookup : String → Except CinderError Volume)
    (host_state : HostState) (spec_obj : RequestSpec) : Bool × List String :=
  match spec_obj.get_scheduler_hint "same_volume_host" with
  | none => (true, [])
  | some volume_id =>
    if volume_id = "" then (true, [])
    else
      match lookup volume_id with
      | .error .notFound => (false, [volume_id])
      | .error (.other _) => (false, [volume_id])
      | .ok volume =>
        match volume.os_vol_host_attr_host with
        | none => (false, [volume_id])
        | some volume_host =>
          if volume_host = "" then (false, [volume_id])
          else
            let volume_host_name :=
              String.mk (volume_host.data.takeWhile (fun c => c ≠ '@'))
            (host_state.host == volume_host_name, [volume_id])

/-- `backend_passes` viewed as a transformer of its argument objects:
the method body reads but never assigns a field of either argument, so
every return site of the source yields the arguments as they stand. -/
def backend_passes_st (backend_state : BackendState)
    (filter_properties : FilterProperties) :
    Bool × BackendState × FilterProperties :=
  let scheduler_hints : HintMap := filter_properties.scheduler_hints.getD []
  match scheduler_hints.get? HINT_KEYWORD with
  | none => (true, backend_state, filter_properties)
  | some target_host =>
    if target_host = "" then (true, backend_state, filter_properties)
    else
      let backend_host := extract_host backend_state.backend_id
      (backend_host == target_host, backend_state, filter_properties)

/-- `host_passes` viewed as a transformer of its argument objects: the
method body reads but never assigns a field of the host state or of the
request spec, so every return site of the source yields the arguments
as they stand. -/
def host_passes_st (lookup : String → Except CinderError Volume)
    (host_state : HostState) (spec_obj : RequestSpec) :
    Bool × HostState × RequestSpec :=
  match spec_obj.get_scheduler_hint "same_volume_host" with
  | none => (true, host_state, spec_obj)
  | some volume_id =>
    if volume_id = "" then (true, host_state, spec_obj)
    else
      match lookup volume_id with
      | .error .notFound => (false, host_state, spec_obj)
      | .error (.other _) => (false, host_state, spec_obj)
      | .ok volume =>
        match volume.os_vol_host_attr_host with
        | none => (false, host_state, spec_obj)
        | some volume_host =>
          if volume_host = "" then (false, host_state, spec_obj)
          else
            let volume_host_name :=
              String.mk (volume_host.data.takeWhile (fun c => c ≠ '@'))
            (host_state.host == volume_host_name, host_state, spec_obj)

/-- Claim C1: for every candidate and every request whose
`same_volume_host` hint is set, if the remote volume lookup fails with
any error other than not-found, `host_passes` returns `false`; being a
total `Bool`-valued function (the source's final `except Exception`
clause), no exception propagates to the caller. -/
theorem volumeAffinity_other_error_fails
    (lookup : String → Except CinderError Volume)
    (host_state : HostState) (spec_obj : RequestSpec)
    (volume_id detail : String)
    (hhint : spec_obj.get_scheduler_hint "same_volume_host" = some volume_id)
    (hne : volume_id ≠ "")
    (herr : lookup volume_id = .error (.other detail)) :
    host_passes lookup host_state spec_obj = false := by
  simp [host_passes, hhint, hne, herr]

/-- Witness for C1 at a concrete raising lookup. -/
theorem volumeAffinity_other_error_fails_witness :
    host_passes (fun _ => .error (.other "connection timeout")) ⟨"nodeA"⟩
      ⟨some [("same_volume_host", "vol-123")]⟩ = false :=
  volumeAffinity_other_error_fails _ _ _ "vol-123" "connection timeout"
    (by decide) (by decide) rfl

/-- Claim C2: for every candidate, if the `same_volume_host` hint is set
and the lookup reports the referenced volume as not found, `host_passes`
returns `false`, regardless of the candidate's identity (the host state
is universally quantified). -/
theorem volumeAffinity_notFound_fails
    (lookup : String → Except CinderError Volume)
    (host_state : HostState) (spec_obj : RequestSpec)
    (volume_id : String)
    (hhint : spec_obj.get_scheduler_hint "same_volume_host" = some volume_id)
    (hne : volume_id ≠ "")
    (herr : lookup volume_id = .error .notFound) :
    host_passes lookup host_state spec_obj = false := by
  simp [host_passes, hhint, hne, herr]

/-- Witness for C2 at a concrete not-found lookup. -/
theorem volumeAffinity_notFound_fails_witness :
    host_passes (fun _ => .error .notFound) ⟨"nodeB"⟩
      ⟨some [("same_volume_host", "vol-123")]⟩ = false :=
  volumeAffinity_notFound_fails _ _ _ "vol-123" (by decide) (by decide) rfl

/-- Claim C3: for every candidate, if the `same_volume_host` hint is set
and the lookup succeeds but the resolved volume lacks the
`os-vol-host-attr:host` attribute, `host_passes` returns `false`. -/
theorem volumeAffinity_missing_attr_fails
    (lookup : String → Except CinderError Volume)
    (host_state : HostState) (spec_obj : RequestSpec)
    (volume_id : String) (volume : Volume)
    (hhint : spec_obj.get_scheduler_hint "same_volume_host" = some volume_id)
    (hne : volume_id ≠ "")
    (hok : lookup volume_id = .ok volume)
    (hattr : volume.os_vol_host_attr_host = none) :
    host_passes lookup host_state spec_obj = false := by
  simp [host_passes, hhint, hne, hok, hattr]

/-- Witness for C3 at a concrete attribute-less volume. -/
theorem volumeAffinity_missing_attr_fails_witness :
    host_passes (fun _ => .ok ⟨none⟩) ⟨"nodeA"⟩
      ⟨some [("same_volume_host", "vol-123")]⟩ = false :=
  volumeAffinity_missing_attr_fails _ _ _ "vol-123" ⟨none⟩
    (by decide) (by decide) rfl rfl

/-- Claim C4: for both filters, when the relevant hint is absent, or
present with the empty (falsy) value, the evaluation returns `true` for
every candidate — including when the hint mapping itself is absent. -/
theorem filters_no_hint_pass :
    (∀ (backend_state : BackendState) (filter_properties : FilterProperties),
        (HintMap.get? (filter_properties.scheduler_hints.getD []) HINT_KEYWORD
            = none ∨
         HintMap.get? (filter_properties.scheduler_hints.getD []) HINT_KEYWORD
            = some "") →
        backend_passes backend_state filter_properties = true) ∧
    (∀ backend_state : BackendState,
        backend_passes backend_state ⟨none⟩ = true) ∧
    (∀ (lookup : String → Except CinderError Volume)
        (host_state : HostState) (spec_obj : RequestSpec),
        (spec_obj.get_scheduler_hint "same_volume_host" = none ∨
         spec_obj.get_scheduler_hint "same_volume_host" = some "") →
        host_passes lookup host_state spec_obj = true) ∧
    (∀ (lookup : String → Except CinderError Volume) (host_state : HostState),
        host_passes lookup host_state ⟨none⟩ = true) := by
  refine ⟨?_, ?_, ?_, ?_⟩
  · rintro bs fp (h | h) <;> simp [backend_passes, h]
  · intro bs; rfl
  · rintro lookup hs so (h | h) <;> simp [host_passes, h]
  · intro lookup hs; rfl

/-- Witness for C4: the empty-hint and absent-map cases at concrete
inputs. -/
theorem filters_no_hint_pass_witness :
    backend_passes ⟨"nodeA@backend1#poolX"⟩ ⟨some [("target_host", "")]⟩
      = true ∧
    host_passes (fun _ => .error .notFound) ⟨"nodeA"⟩ ⟨some []⟩ = true :=
  ⟨filters_no_hint_pass.1 _ _ (Or.inr (by decide)),
   filters_no_hint_pass.2.2.1 _ _ _ (Or.inl (by decide))⟩

/-- Claim C5: when the `same_volume_host` hint is set and the lookup
yields a volume with a non-empty owning host string, `host_passes`
normalizes that string to its segment before the first `@` and returns
`true` exactly when the candidate's host equals the normalized name;
concretely, owning host `"nodeA@backend1#poolX"` passes candidate
`"nodeA"` and fails candidate `"nodeB"`. -/
theorem volumeAffinity_match_iff :
    (∀ (lookup : String → Except CinderError Volume)
        (host_state : HostState) (spec_obj : RequestSpec)
        (volume_id : String) (volume : Volume) (volume_host : String),
        spec_obj.get_scheduler_hint "same_volume_host" = some volume_id →
        volume_id ≠ "" →
        lookup volume_id = .ok volume →
        volume.os_vol_host_attr_host = some volume_host →
        volume_host ≠ "" →
        (host_passes lookup host_state spec_obj = true ↔
          host_state.host =
            String.mk (volume_host.data.takeWhile (fun c => c ≠ '@')))) ∧
    host_passes (fun _ => .ok ⟨some "nodeA@backend1#poolX"⟩) ⟨"nodeA"⟩
      ⟨some [("same_volume_host", "vol-123")]⟩ = true ∧
    host_passes (fun _ => .ok ⟨some "nodeA@backend1#poolX"⟩) ⟨"nodeB"⟩
      ⟨some [("same_volume_host", "vol-123")]⟩ = false := by
  refine ⟨?_, by decide, by decide⟩
  intro lookup hs so volume_id volume volume_host hhint hne hok hattr hvne
  simp [host_passes, hhint, hne, hok, hattr, hvne]

/-- Witness for C5, applying the general statement at the spec's
concrete scenario (owning host `"hostX@lvm-1"`, candidate `"hostX"`). -/
theorem volumeAffinity_match_iff_witness :
    host_passes (fun _ => .ok ⟨some "hostX@lvm-1"⟩) ⟨"hostX"⟩
      ⟨some [("same_volume_host", "vol-123")]⟩ = true :=
  (volumeAffinity_match_iff.1 _ ⟨"hostX"⟩ _ "vol-123" ⟨some "hostX@lvm-1"⟩
    "hostX@lvm-1" (by decide) (by decide) rfl rfl (by decide)).mpr (by decide)

/-- Claim C6: for every candidate whose request sets `target_host` to a
non-empty value, `backend_passes` returns `true` exactly when the host
component of the candidate's raw identity equals the hint value — plain
string equality, so case-sensitive with no wildcard or prefix matching;
every other value returns `false`. -/
theorem targetHost_match_iff
    (backend_state : BackendState) (filter_properties : FilterProperties)
    (target_host : String)
    (hhint : HintMap.get? (filter_properties.scheduler_hints.getD [])
        HINT_KEYWORD = some target_host)
    (hne : target_host ≠ "") :
    backend_passes backend_state filter_properties = true ↔
      extract_host backend_state.backend_id = target_host := by
  simp [backend_passes, hhint, hne]

/-- Witness for C6: backend `"nodeA@backend1#poolX"` against hint
`"nodeA"`. -/
theorem targetHost_match_iff_witness :
    backend_passes ⟨"nodeA@backend1#poolX"⟩
      ⟨some [("target_host", "nodeA")]⟩ = true :=
  (targetHost_match_iff ⟨"nodeA@backend1#poolX"⟩ _ "nodeA"
    (by decide) (by decide)).mpr (by decide)

/-- Claim C10: a resolved volume whose `os-vol-host-attr:host` attribute
is present but equal to the empty string is treated like a missing
attribute: `host_passes` returns `false` for every candidate, whatever
its host identity. -/
theorem volumeAffinity_empty_attr_fails
    (lookup : String → Except CinderError Volume)
    (host_state : HostState) (spec_obj : RequestSpec)
    (volume_id : String) (volume : Volume)
    (hhint : spec_obj.get_scheduler_hint "same_volume_host" = some volume_id)
    (hne : volume_id ≠ "")
    (hok : lookup volume_id = .ok volume)
    (hattr : volume.os_vol_host_attr_host = some "") :
    host_passes lookup host_state spec_obj = false := by
  simp [host_passes, hhint, hne, hok, hattr]

/-- Witness for C10 at a concrete empty-attribute volume. -/
theorem volumeAffinity_empty_attr_fails_witness :
    host_passes (fun _ => .ok ⟨some ""⟩) ⟨"nodeA"⟩
      ⟨some [("same_volume_host", "vol-123")]⟩ = false :=
  volumeAffinity_empty_attr_fails _ _ _ "vol-123" ⟨some ""⟩
    (by decide) (by decide) rfl rfl

/-- Claim C7: the evaluation performs exactly one remote lookup when the
`same_volume_host` hint is set (and none when it is not), never retries
within one evaluation, and its boolean is fully determined before it
returns: the traced evaluation agrees with `host_passes` and its call
trace is exactly `[volume_id]` (respectively `[]`). -/
theorem volumeAffinity_single_lookup
    (lookup : String → Except CinderError Volume)
    (host_state : HostState) (spec_obj : RequestSpec) :
    (host_passes_traced lookup host_state spec_obj).1 =
      host_passes lookup host_state spec_obj ∧
    (∀ volume_id : String,
        spec_obj.get_scheduler_hint "same_volume_host" = some volume_id →
        volume_id ≠ "" →
        (host_passes_traced lookup host_state spec_obj).2 = [volume_id]) ∧
    ((spec_obj.get_scheduler_hint "same_volume_host" = none ∨
      spec_obj.get_scheduler_hint "same_volume_host" = some "") →
      (host_passes_traced lookup host_state spec_obj).2 = []) := by
  refine ⟨?_, ?_, ?_⟩
  · unfold host_passes_traced host_passes
    rcases spec_obj.get_scheduler_hint "same_volume_host" with _ | vid
    · rfl
    · by_cases hv : vid = ""
      · simp [hv]
      · simp only [hv, if_false]
        rcases lookup vid with e | v
        · rcases e <;> rfl
        · rcases hattr : v.os_vol_host_attr_host with _ | s
          · simp [hattr]
          · by_cases hs : s = "" <;> simp [hattr, hs]
  · intro volume_id hhint hne
    simp [host_passes_traced, hhint, hne]
    rcases lookup volume_id with e | v
    · rcases e <;> rfl
    · rcases hattr : v.os_vol_host_attr_host with _ | s
      · simp [hattr]
      · by_cases hs : s = "" <;> simp [hattr, hs]
  · rintro (h | h) <;> simp [host_passes_traced, h]

/-- Witness for C7: a concrete hinted request makes exactly the one
lookup for its volume id. -/
theorem volumeAffinity_single_lookup_witness :
    (host_passes_traced (fun _ => .error .notFound) ⟨"nodeA"⟩
      ⟨some [("same_volume_host", "vol-123")]⟩).2 = ["vol-123"] :=
  (volumeAffinity_single_lookup _ _ _).2.1 "vol-123" (by decide) (by decide)

/-- Claim C8: both evaluations are deterministic — two evaluations with
identical candidate and request and an identical external resolution
outcome at the hinted volume return the identical boolean; the direct
filter consumes no external state at all. -/
theorem filters_deterministic :
    (∀ (lookup1 lookup2 : String → Except CinderError Volume)
        (host_state : HostState) (spec_obj : RequestSpec),
        (∀ volume_id : String,
          spec_obj.get_scheduler_hint "same_volume_host" = some volume_id →
          lookup1 volume_id = lookup2 volume_id) →
        host_passes lookup1 host_state spec_obj =
          host_passes lookup2 host_state spec_obj) ∧
    (∀ (bs1 bs2 : BackendState) (fp1 fp2 : FilterProperties),
        bs1 = bs2 → fp1 = fp2 →
        backend_passes bs1 fp1 = backend_passes bs2 fp2) := by
  constructor
  · intro lookup1 lookup2 hs so hagree
    unfold host_passes
    rcases hhint : so.get_scheduler_hint "same_volume_host" with _ | vid
    · rfl
    · dsimp only
      rw [hagree vid hhint]
  · rintro bs1 bs2 fp1 fp2 rfl rfl
    rfl

/-- Witness for C8: two different lookup oracles that agree at the
hinted volume id produce the same decision. -/
theorem filters_deterministic_witness :
    host_passes
        (fun v => if v = "vol-123" then .error .notFound else .ok ⟨none⟩)
        ⟨"nodeA"⟩ ⟨some [("same_volume_host", "vol-123")]⟩ =
      host_passes (fun _ => .error .notFound) ⟨"nodeA"⟩
        ⟨some [("same_volume_host", "vol-123")]⟩ :=
  filters_deterministic.1 _ _ _ _
    (fun vid h => by
      have hv : vid = "vol-123" := (Option.some.inj h).symm
      subst hv
      simp)

/-- Claim C9: neither evaluation mutates its inputs: viewed as state
transformers, both return the candidate and the request exactly as they
were passed in, together with the same boolean the pure evaluation
computes. -/
theorem filters_no_mutation :
    (∀ (backend_state : BackendState) (filter_properties : FilterProperties),
        (backend_passes_st backend_state filter_properties).2 =
          (backend_state, filter_properties) ∧
        (backend_passes_st backend_state filter_properties).1 =
          backend_passes backend_state filter_properties) ∧
    (∀ (lookup : String → Except CinderError Volume)
        (host_state : HostState) (spec_obj : RequestSpec),
        (host_passes_st lookup host_state spec_obj).2 =
          (host_state, spec_obj) ∧
        (host_passes_st lookup host_state spec_obj).1 =
          host_passes lookup host_state spec_obj) := by
  constructor
  · intro bs fp
    refine ⟨?_, ?_⟩ <;>
      · simp only [backend_passes_st, backend_passes]
        (repeat' split) <;> rfl
  · intro lookup hs so
    refine ⟨?_, ?_⟩ <;>
      · simp only [host_passes_st, host_passes]
        (repeat' split) <;> rfl
